import Mathlib

/-
Verification of the NeurIPS paper harvester/annotator against its design
document.  The two Python modules (scrapper.py, annotator.py) are shallowly
embedded below: pure string manipulation is translated function by function,
network and filesystem effects are threaded through explicit state, and the
outcome of each external call (HTTP response, PDF library, classifier API)
is a parameter of the embedded function.
-/

/-! ## Shared string helpers (Python semantics) -/

/-- Whitespace characters removed by Python's str.strip(). -/
def pyIsSpace (c : Char) : Bool :=
  c = ' ' || c = '\t' || c = '\n' || c = '\r' || c = '\x0b' || c = '\x0c'

/-- Python str.strip(): drop leading and trailing whitespace. -/
def pyStrip (s : String) : String :=
  String.mk (((s.data.dropWhile pyIsSpace).reverse.dropWhile pyIsSpace).reverse)

/-- Python s[:n] on a string (slice of the first n characters). -/
def pyTake (n : Nat) (s : String) : String :=
  String.mk (s.data.take n)

/-- Split a character list on the slash character, Python str.split("/") style
(empty segments are kept). -/
def splitOnSlash : List Char → List (List Char)
  | [] => [[]]
  | c :: rest =>
    let r := splitOnSlash rest
    if c = '/' then [] :: r
    else
      match r with
      | [] => [[c]]
      | g :: gs => (c :: g) :: gs

/-- Python s.split("/")[-1]: the last slash-separated segment. -/
def lastSeg (s : String) : String :=
  String.mk ((splitOnSlash s.data).getLastD [])

/-- Boolean string suffix test, Python str.endswith / CSS [href$=...]. -/
def strHasSuffix (s suffixStr : String) : Bool :=
  suffixStr.data.isSuffixOf s.data

namespace Scrapper

/-! ## Embedding of scrapper.py -/

def BASE_URL : String := "https://papers.nips.cc"

def DOWNLOAD_DIR : String := "NeurIPS_Papers"

def METADATA_FILE : String := "metadata.json"

/-- One record of metadata.json, exactly the dict built in process_paper:
keys title, url (the paper page URL), authors, year, file_path, scraped_at. -/
structure MetaEntry where
  title : String
  url : String
  authors : String
  year : Nat
  file_path : String
  scraped_at : String
deriving DecidableEq

/-- The "Authors" region of a paper page as BeautifulSoup sees it:
either no h4 with text "Authors" exists, or it exists with no following
p sibling, or the p sibling has no i element, or it has one with the
given raw text. -/
inductive AuthorsHtml
  | noHeading
  | headingNoP
  | pNoItalic
  | pItalic (raw : String)
deriving DecidableEq

/-- A fetched paper page, reduced to the features process_paper reads:
the first h4 text (if any h4 exists), the Authors region, and the href
attributes of its anchor elements in document order. -/
structure Page where
  h4text : Option String
  authorsHtml : AuthorsHtml
  anchors : List String
deriving DecidableEq

/-- Outcome of the requests.get in download_pdf: an HTTP response with a
status code, or a raised transport exception. -/
inductive DlResult
  | resp (status : Nat)
  | exc
deriving DecidableEq

/-- The mutable world of the scrapper: the metadata.json contents and the
list of artifact files written to disk. -/
structure ScrapeState where
  store : List MetaEntry
  fs : List String
deriving DecidableEq

/-- save_metadata: load the existing collection, append one record, write it
back (sequential semantics; the interleaved semantics is modelled below). -/
def save_metadata (entry : MetaEntry) (store : List MetaEntry) : List MetaEntry :=
  store ++ [entry]

/-- is_already_downloaded: any stored entry with truthy file_path whose
url field equals the queried pdf_url. -/
def is_already_downloaded (pdf_url : String) (store : List MetaEntry) : Bool :=
  store.any fun e => e.file_path != "" && e.url == pdf_url

/-- download_pdf: on HTTP 200 write the body to file_path; on any other
status or a transport exception, log and return (never raises). -/
def download_pdf (file_path : String) (dl : DlResult) (st : ScrapeState) : ScrapeState :=
  match dl with
  | DlResult.resp status =>
      if status = 200 then { st with fs := st.fs ++ [file_path] } else st
  | DlResult.exc => st

/-- The literal of the year regex: the text before the capture group. -/
def yearPat : List Char := "/paper_files/paper/".data

/-- Match a literal character list at the head, returning the rest. -/
def stripLit : List Char → List Char → Option (List Char)
  | [], cs => some cs
  | _ :: _, [] => none
  | p :: ps, c :: cs => if c = p then stripLit ps cs else none

/-- Try the regex /paper_files/paper/(\d.{4})/ at this position: the literal,
then four digits, then a slash; yield the captured number. -/
def yearAt (cs : List Char) : Option Nat :=
  match stripLit yearPat cs with
  | none => none
  | some (d1 :: d2 :: d3 :: d4 :: '/' :: _) =>
      if d1.isDigit && d2.isDigit && d3.isDigit && d4.isDigit then
        some ((((d1.toNat - 48) * 10 + (d2.toNat - 48)) * 10 + (d3.toNat - 48)) * 10
          + (d4.toNat - 48))
      else none
  | some _ => none

/-- re.search: leftmost position where the year pattern matches. -/
def searchYearAux : List Char → Option Nat
  | [] => none
  | c :: cs =>
    match yearAt (c :: cs) with
    | some y => some y
    | none => searchYearAux cs

/-- Year extraction from the paper page URL. -/
def searchYear (url : String) : Option Nat :=
  searchYearAux url.data

/-- select_one on "a[href$='-Paper-Conference.pdf'], a[href$='-Paper.pdf']". -/
def isPdfHref (h : String) : Bool :=
  strHasSuffix h "-Paper-Conference.pdf" || strHasSuffix h "-Paper.pdf"

/-- First anchor in document order whose href matches either suffix. -/
def select_pdf (anchors : List String) : Option String :=
  anchors.find? isPdfHref

/-- The value of the local variable authors: assigned only when the p
sibling exists and has an i element; otherwise never assigned. -/
def authorsVar : AuthorsHtml → Option String
  | AuthorsHtml.pItalic raw => some (pyStrip raw)
  | _ => none

/-- Destination path for an artifact: DOWNLOAD_DIR/str(year)/last URL segment. -/
def artifactDest (year : Nat) (pdf_url : String) : String :=
  DOWNLOAD_DIR ++ "/" ++ toString year ++ "/" ++ lastSeg pdf_url

/-- process_paper, for a page that was fetched successfully.  The body runs
under a catch-all handler, so a raised exception returns with the side
effects performed so far kept.  The two raise points are modelled exactly:
if no "Authors" h4 exists, author_section is None and
author_section.find_next_sibling raises AttributeError before anything
else happens; if the authors variable was never assigned, building the
metadata dict raises NameError after the download has already run. -/
def process_paper (page : Page) (pageUrl now : String) (dl : DlResult)
    (st : ScrapeState) : ScrapeState :=
  match page.authorsHtml with
  | AuthorsHtml.noHeading => st
  | ah =>
    let year : Nat := (searchYear pageUrl).getD 0
    match select_pdf page.anchors with
    | none => st
    | some href =>
      let pdf_url := BASE_URL ++ href
      if is_already_downloaded pdf_url st.store then st
      else
        let file_path := artifactDest year pdf_url
        let st1 := download_pdf file_path dl st
        match authorsVar ah with
        | none => st1
        | some authors =>
          let title := match page.h4text with
            | some t => pyStrip t
            | none => "Unknown Title"
          { st1 with
            store := save_metadata
              { title := title, url := pageUrl, authors := authors, year := year,
                file_path := file_path, scraped_at := now } st1.store }

/-- One unit of crawl work: a fetched paper page, its URL, the wall-clock
string, and the outcome its artifact download would get. -/
structure PaperJob where
  page : Page
  pageUrl : String
  now : String
  dl : DlResult
deriving DecidableEq

/-- A single-threaded crawl: process each paper job in order. -/
def runCrawl (jobs : List PaperJob) (st : ScrapeState) : ScrapeState :=
  jobs.foldl (fun s j => process_paper j.page j.pageUrl j.now j.dl s) st

/-! ### Interleaved semantics of save_metadata

process_paper runs on a ThreadPoolExecutor with 10 workers and calls
save_metadata with no synchronization, so the file operations of two
concurrent calls interleave freely (subject to each call's program order:
its load precedes its dump).  Each call is two atomic file operations:
load the current file and append the new item to the in-memory copy, then
dump the in-memory copy over the file. -/

/-- State of the shared metadata file plus the in-memory data list of two
in-flight save_metadata calls A and B. -/
structure FileState where
  file : List MetaEntry
  aData : Option (List MetaEntry)
  bData : Option (List MetaEntry)
deriving DecidableEq

/-- One atomic file operation of writer A or writer B. -/
inductive WStep
  | aLoad
  | aDump
  | bLoad
  | bDump
deriving DecidableEq

/-- Effect of one step: a load reads the file and appends the writer's item
in memory; a dump overwrites the file with the writer's in-memory list. -/
def concStep (a b : MetaEntry) (s : FileState) : WStep → FileState
  | WStep.aLoad => { s with aData := some (s.file ++ [a]) }
  | WStep.aDump =>
      match s.aData with
      | some d => { s with file := d }
      | none => s
  | WStep.bLoad => { s with bData := some (s.file ++ [b]) }
  | WStep.bDump =>
      match s.bData with
      | some d => { s with file := d }
      | none => s

/-- Run one interleaving of the two writers' steps. -/
def runSched (a b : MetaEntry) (init : FileState) (sched : List WStep) : FileState :=
  sched.foldl (concStep a b) init

end Scrapper

namespace Annotator

/-! ## Embedding of annotator.py -/

def LABELS : List String :=
  ["Reinforcement Learning", "Computer Vision", "Natural Language Processing",
   "Optimization", "Theoretical ML"]

def API_RETRY_LIMIT : Nat := 5

def API_RETRY_DELAY : Nat := 2

/-- One metadata record as the annotator sees it.  The annot field models
the presence or absence of the JSON key "annotation" on the record. -/
structure AnnEntry where
  title : String
  url : String
  authors : String
  year : Nat
  file_path : String
  scraped_at : String
  annot : Option String
deriving DecidableEq, Inhabited

/-- A PDF file on disk as fitz and os.path see it: its byte size, whether
opening and reading it raises, and the text of its pages. -/
structure PdfFile where
  size : Nat
  openOk : Bool
  pages : List String
deriving DecidableEq, Inhabited

/-- The local filesystem: paths mapped to PDF files; absent path means the
file does not exist. -/
def fsLookup (fs : List (String × PdfFile)) (path : String) : Option PdfFile :=
  (fs.find? fun kv => kv.1 == path).map fun kv => kv.2

/-- is_valid_pdf: os.path.exists(file_path) and os.path.getsize(file_path) > 0. -/
def is_valid_pdf (fs : List (String × PdfFile)) (path : String) : Bool :=
  match fsLookup fs path with
  | some f => decide (0 < f.size)
  | none => false

/-- extract_text_from_pdf: empty string for an invalid file or a raising
open/read; otherwise join the first min(3, page count) page texts with a
newline and strip, substituting "No text found" when the result is empty. -/
def extract_text_from_pdf (fs : List (String × PdfFile)) (path : String) : String :=
  if is_valid_pdf fs path then
    match fsLookup fs path with
    | none => ""
    | some f =>
      if f.openOk then
        let text := pyStrip (String.intercalate "\n" (f.pages.take 3))
        if text = "" then "No text found" else text
      else ""
  else ""

/-- Outcome of one generate_content attempt: a response (whose text is
none when the response object is falsy), a rate-limit exception whose
message contains "429", or any other exception. -/
inductive ApiOutcome
  | resp (text : Option String)
  | exc429
  | excOther
deriving DecidableEq

/-- The retry loop of call_gemini_with_retry: attempt is the current loop
index, fuel the remaining iterations of range(max_retries).  Returns the
final result together with the list of time.sleep durations performed. -/
def retryGo (oc : Nat → ApiOutcome) : Nat → Nat → String × List Nat
  | _, 0 => ("Unknown", [])
  | attempt, fuel + 1 =>
    match oc attempt with
    | ApiOutcome.resp none => ("Unknown", [])
    | ApiOutcome.resp (some t) => (pyStrip t, [])
    | ApiOutcome.excOther => ("Unknown", [])
    | ApiOutcome.exc429 =>
      let r := retryGo oc (attempt + 1) fuel
      (r.1, (API_RETRY_DELAY * 2 ^ attempt) :: r.2)

/-- call_gemini_with_retry: run the attempts from index 0.  oc gives the
outcome of the i-th generate_content call. -/
def call_gemini_with_retry (oc : Nat → ApiOutcome) (max_retries : Nat) :
    String × List Nat :=
  retryGo oc 0 max_retries

/-- The prompt string annotate_text builds (the f-string, with the label
list joined by ", " and the text truncated to its first 1000 characters). -/
def mkPrompt (text : String) : String :=
  "\n    Categorize the following research paper text into one of these categories: "
    ++ String.intercalate ", " LABELS
    ++ ".\n    Respond with only the label name.\n    Text:\n"
    ++ pyTake 1000 text
    ++ "\n    "

/-- annotate_text: build the prompt and call the retrying client.  oc maps
each prompt to its stream of attempt outcomes. -/
def annotate_text (oc : String → Nat → ApiOutcome) (text : String) : String :=
  (call_gemini_with_retry (oc (mkPrompt text)) API_RETRY_LIMIT).1

/-- The loop body of annotate_papers for one entry of the unannotated list,
returning the updated entry and the prompts sent to the classifier. -/
def annotate_one (fs : List (String × PdfFile)) (oc : String → Nat → ApiOutcome)
    (e : AnnEntry) : AnnEntry × List String :=
  if is_valid_pdf fs e.file_path then
    let text := extract_text_from_pdf fs e.file_path
    if text = "" then ({ e with annot := some "Unknown" }, [])
    else ({ e with annot := some (annotate_text oc text) }, [mkPrompt text])
  else ({ e with annot := some "Unknown" }, [])

/-- The for-loop of annotate_papers over the metadata list: entries that
already carry an annotation pass through untouched, the others are
processed by annotate_one; prompts are collected in processing order. -/
def annLoop (fs : List (String × PdfFile)) (oc : String → Nat → ApiOutcome) :
    List AnnEntry → List AnnEntry × List String
  | [] => ([], [])
  | e :: rest =>
    let acc := annLoop fs oc rest
    match e.annot with
    | some _ => (e :: acc.1, acc.2)
    | none =>
      let r := annotate_one fs oc e
      (r.1 :: acc.1, r.2 ++ acc.2)

/-- annotate_papers: early-return when the metadata is empty or every entry
already has an annotation; otherwise process exactly the entries without
one, in order, leaving the others untouched.  Returns the updated records
and all prompts sent to the classifier, in order. -/
def annotate_papers (fs : List (String × PdfFile)) (oc : String → Nat → ApiOutcome)
    (metadata : List AnnEntry) : List AnnEntry × List String :=
  if metadata.isEmpty then (metadata, [])
  else if metadata.all (fun e => e.annot.isSome) then (metadata, [])
  else annLoop fs oc metadata

end Annotator

/-! ## Concrete inputs used by several theorems -/

namespace Scrapper

/-- Artifact link found on the example paper page. -/
def exHref : String := "/paper_files/paper/2024/file/abc-Paper-Conference.pdf"

/-- The example paper page URL (the .html page describing the paper). -/
def exUrl : String :=
  "https://papers.nips.cc/paper_files/paper/2024/hash/abc-Abstract-Conference.html"

/-- The example artifact (PDF) URL, as process_paper builds it. -/
def exPdfUrl : String := BASE_URL ++ exHref

def exNow : String := "2025-01-01 00:00:00"

/-- Destination the example artifact is written to. -/
def exPath : String := "NeurIPS_Papers/2024/abc-Paper-Conference.pdf"

/-- A well-formed example paper page: title, Authors section with an
italic element, and an artifact link. -/
def exPage : Page :=
  { h4text := some "Example Paper", authorsHtml := AuthorsHtml.pItalic "Jane Doe",
    anchors := [exHref] }

/-- The record process_paper stores for the example page. -/
def exEntry : MetaEntry :=
  { title := "Example Paper", url := exUrl, authors := "Jane Doe", year := 2024,
    file_path := exPath, scraped_at := exNow }

/-- The single-paper catalog used for the idempotence test. -/
def exJobs : List PaperJob :=
  [{ page := exPage, pageUrl := exUrl, now := exNow, dl := DlResult.resp 200 }]

end Scrapper

/-! ## Claim theorems -/

namespace Scrapper

/-- C1: the claim says is_already_downloaded(u) is true exactly when some
stored record has artifact URL u with a non-empty artifact path.  Refuted by
the code: processing the example paper downloads the artifact exPdfUrl and
stores one record with non-empty file_path, yet is_already_downloaded
exPdfUrl on the resulting store returns false, because the code compares the
queried artifact URL against the stored url field, which holds the paper
page URL, and never stores the artifact URL at all. -/
theorem c1_dedup_query_misses_harvested_artifact :
    (process_paper exPage exUrl exNow (DlResult.resp 200)
        { store := [], fs := [] }).store = [exEntry]
    ∧ (process_paper exPage exUrl exNow (DlResult.resp 200)
        { store := [], fs := [] }).fs = [exPath]
    ∧ exEntry.file_path ≠ ""
    ∧ is_already_downloaded exPdfUrl
        (process_paper exPage exUrl exNow (DlResult.resp 200)
          { store := [], fs := [] }).store = false := by
  decide

/-- C2: the claim says a second crawl over an unchanged catalog appends no
duplicate records and performs no duplicate downloads.  Refuted by the code:
because the dedup query never matches (see C1), the second single-threaded
run over the same one-paper catalog appends an identical duplicate record
and downloads the same artifact a second time. -/
theorem c2_second_run_duplicates :
    (runCrawl exJobs { store := [], fs := [] }).store = [exEntry]
    ∧ (runCrawl exJobs (runCrawl exJobs { store := [], fs := [] })).store =
        [exEntry, exEntry]
    ∧ (runCrawl exJobs (runCrawl exJobs { store := [], fs := [] })).fs =
        [exPath, exPath] := by
  decide

/-- Item appended by concurrent writer A. -/
def wA : MetaEntry :=
  { title := "Paper A", url := "https://papers.nips.cc/a.html", authors := "Alice",
    year := 2024, file_path := "NeurIPS_Papers/2024/a-Paper.pdf", scraped_at := "t1" }

/-- Item appended by concurrent writer B. -/
def wB : MetaEntry :=
  { title := "Paper B", url := "https://papers.nips.cc/b.html", authors := "Bob",
    year := 2024, file_path := "NeurIPS_Papers/2024/b-Paper.pdf", scraped_at := "t2" }

/-- Item already in the store before the two writers run. -/
def wC : MetaEntry :=
  { title := "Paper C", url := "https://papers.nips.cc/c.html", authors := "Carol",
    year := 2024, file_path := "NeurIPS_Papers/2024/c-Paper.pdf", scraped_at := "t0" }

/-- C3: the claim says each save_metadata call runs its read-add-write
sequence in a critical section excluding the other writer, so no appended
item is lost.  Refuted by the code: save_metadata takes no lock, so the
interleaving load A, load B, dump A, dump B is possible, and it loses
writer A's item: the final file is [wC, wB]. -/
theorem c3_concurrent_append_loses_item :
    (runSched wA wB { file := [wC], aData := none, bData := none }
        [WStep.aLoad, WStep.bLoad, WStep.aDump, WStep.bDump]).file = [wC, wB]
    ∧ wA ∉ (runSched wA wB { file := [wC], aData := none, bData := none }
        [WStep.aLoad, WStep.bLoad, WStep.aDump, WStep.bDump]).file := by
  decide

/-- C4: the claim says a failed artifact download records the item with an
empty artifactPath.  Refuted by the code: on HTTP 500 no file is written
(fs stays empty), the run continues and the record is still appended, but
its file_path field holds the full would-be destination path, not the
empty string. -/
theorem c4_failed_download_records_destination_path :
    (process_paper exPage exUrl exNow (DlResult.resp 500)
        { store := [], fs := [] }).fs = []
    ∧ (process_paper exPage exUrl exNow (DlResult.resp 500)
        { store := [], fs := [] }).store = [exEntry]
    ∧ exEntry.file_path = exPath
    ∧ exPath ≠ "" := by
  decide

/-- The example page with no "Authors" heading at all. -/
def exPageNoAuthors : Page :=
  { h4text := some "Example Paper", authorsHtml := AuthorsHtml.noHeading,
    anchors := [exHref] }

/-- C5: the claim says a page with a title and artifact link but no
"Authors" heading still parses into a record with authors unset and
title/year populated.  Refuted by the code: soup.find("h4", text="Authors")
returns None and the unconditional author_section.find_next_sibling("p")
raises AttributeError, so the per-item handler swallows the error before
the download or the metadata write: the item is skipped entirely, no
record and no download. -/
theorem c5_missing_authors_heading_skips_item :
    process_paper exPageNoAuthors exUrl exNow (DlResult.resp 200)
      { store := [], fs := [] } = { store := [], fs := [] } := by
  decide

/-- C10: for a page whose artifact is not flagged by the dedup query and
whose "Authors" heading is followed by a paragraph with no italic element,
the authors variable is never assigned, so building the metadata dict
raises NameError after download_pdf has already written the file: the
artifact lands on disk but no record is appended. -/
theorem c10_no_italic_downloads_without_record
    (page : Page) (pageUrl now : String) (st : ScrapeState) (href : String)
    (hA : page.authorsHtml = AuthorsHtml.pNoItalic)
    (hpdf : select_pdf page.anchors = some href)
    (hnew : is_already_downloaded (BASE_URL ++ href) st.store = false) :
    process_paper page pageUrl now (DlResult.resp 200) st =
      { store := st.store,
        fs := st.fs ++
          [artifactDest ((searchYear pageUrl).getD 0) (BASE_URL ++ href)] } := by
  unfold process_paper
  rw [hA]
  simp [hpdf, hnew, download_pdf, authorsVar]

/-- The example page whose Authors paragraph has no italic element. -/
def exPageNoItalic : Page :=
  { h4text := some "Example Paper", authorsHtml := AuthorsHtml.pNoItalic,
    anchors := [exHref] }

/-- C10 witness: concrete run of the theorem on the example page; the
artifact file appears on disk and the store stays empty. -/
theorem c10_no_italic_witness :
    process_paper exPageNoItalic exUrl exNow (DlResult.resp 200)
      { store := [], fs := [] } = { store := [], fs := [exPath] } := by
  have h := c10_no_italic_downloads_without_record exPageNoItalic exUrl exNow
    { store := [], fs := [] } exHref (by decide) (by decide) (by decide)
  rw [h]
  decide

end Scrapper

namespace Annotator

/-! ### Helper lemmas on the retry loop -/

/-- Running the retry loop across a block of k consecutive rate-limit
outcomes sleeps the k backoff delays and continues with the remaining fuel. -/
theorem retryGo_run (oc : Nat → ApiOutcome) (k : Nat) :
    ∀ (a fuel : Nat), (∀ i, i < k → oc (a + i) = ApiOutcome.exc429) → k ≤ fuel →
      retryGo oc a fuel =
        ((retryGo oc (a + k) (fuel - k)).1,
          ((List.range k).map fun i => API_RETRY_DELAY * 2 ^ (a + i))
            ++ (retryGo oc (a + k) (fuel - k)).2) := by
  induction k with
  | zero =>
    intro a fuel _ _
    simp
  | succ k ih =>
    intro a fuel h hk
    obtain ⟨f, rfl⟩ : ∃ f, fuel = f + 1 := ⟨fuel - 1, by omega⟩
    have h0 : oc a = ApiOutcome.exc429 := by simpa using h 0 (by omega)
    have ih1 := ih (a + 1) f
      (fun i hi => by
        have := h (i + 1) (by omega)
        simpa [Nat.add_assoc, Nat.add_comm 1 i] using this)
      (by omega)
    have hshift : (fun i => API_RETRY_DELAY * 2 ^ (a + 1 + i)) =
        (fun i => API_RETRY_DELAY * 2 ^ (a + (i + 1))) := by
      funext i
      have : a + 1 + i = a + (i + 1) := by omega
      rw [this]
    have hfa : a + 1 + k = a + (k + 1) := by omega
    have hff : f - k = f + 1 - (k + 1) := by omega
    simp only [retryGo, h0]
    rw [ih1, hshift, hfa, hff]
    simp [List.range_succ_eq_map, List.map_map, Function.comp]

/-- The retry loop's result is "Unknown" or the stripped text of some
successful response among the attempts it may reach. -/
theorem retryGo_result (oc : Nat → ApiOutcome) :
    ∀ (fuel a : Nat), (retryGo oc a fuel).1 = "Unknown" ∨
      ∃ i t, a ≤ i ∧ i < a + fuel ∧ oc i = ApiOutcome.resp (some t) ∧
        (retryGo oc a fuel).1 = pyStrip t := by
  intro fuel
  induction fuel with
  | zero => intro a; left; rfl
  | succ f ih =>
    intro a
    cases hoc : oc a with
    | resp tOpt =>
      cases tOpt with
      | none => left; simp [retryGo, hoc]
      | some t =>
        right
        exact ⟨a, t, Nat.le_refl a, by omega, hoc, by simp [retryGo, hoc]⟩
    | exc429 =>
      rcases ih (a + 1) with hu | ⟨i, t, hai, hlt, hoci, hres⟩
      · left; simp [retryGo, hoc, hu]
      · right
        exact ⟨i, t, by omega, by omega, hoci, by simp [retryGo, hoc, hres]⟩
    | excOther => left; simp [retryGo, hoc]

/-- C7: if the classifier raises a rate-limit error on exactly the first
k < 5 attempts and then succeeds, call_gemini_with_retry returns the
successful (stripped) response text after sleeping exactly k delays, the
delay before retrying attempt i being 2 * 2 ^ i seconds. -/
theorem c7_retry_backoff (oc : Nat → ApiOutcome) (k : Nat) (t : String)
    (hk : k < API_RETRY_LIMIT)
    (h429 : ∀ i, i < k → oc i = ApiOutcome.exc429)
    (hsucc : oc k = ApiOutcome.resp (some t)) :
    call_gemini_with_retry oc API_RETRY_LIMIT =
      (pyStrip t, (List.range k).map fun i => API_RETRY_DELAY * 2 ^ i) := by
  have hrun := retryGo_run oc k 0 API_RETRY_LIMIT
    (fun i hi => by simpa using h429 i hi) (Nat.le_of_lt hk)
  obtain ⟨m, hm⟩ : ∃ m, API_RETRY_LIMIT - k = m + 1 := ⟨API_RETRY_LIMIT - k - 1, by omega⟩
  rw [call_gemini_with_retry, hrun, hm]
  simp [retryGo, hsucc]

/-- C7 witness: two rate-limit errors then success yields the successful
label with delays 2s then 4s. -/
theorem c7_retry_backoff_witness :
    call_gemini_with_retry
      (fun i => if i < 2 then ApiOutcome.exc429 else ApiOutcome.resp (some "Optimization"))
      API_RETRY_LIMIT = ("Optimization", [2, 4]) := by
  have h := c7_retry_backoff
    (fun i => if i < 2 then ApiOutcome.exc429 else ApiOutcome.resp (some "Optimization"))
    2 "Optimization" (by decide)
    (fun i hi => by simp [hi])
    (by decide)
  rw [h]
  decide

/-- C8: call_gemini_with_retry never propagates an error: its result is
always either the sentinel "Unknown" or the stripped text of a successful
response; on the first non-rate-limit error it returns "Unknown"
immediately (having slept only the rate-limit delays before it); and after
five rate-limit errors it returns "Unknown" having exhausted all attempts. -/
theorem c8_never_propagates (oc : Nat → ApiOutcome) :
    ((call_gemini_with_retry oc API_RETRY_LIMIT).1 = "Unknown" ∨
      ∃ i t, i < API_RETRY_LIMIT ∧ oc i = ApiOutcome.resp (some t) ∧
        (call_gemini_with_retry oc API_RETRY_LIMIT).1 = pyStrip t)
    ∧ (∀ j, j < API_RETRY_LIMIT → (∀ i, i < j → oc i = ApiOutcome.exc429) →
        oc j = ApiOutcome.excOther →
        call_gemini_with_retry oc API_RETRY_LIMIT =
          ("Unknown", (List.range j).map fun i => API_RETRY_DELAY * 2 ^ i))
    ∧ ((∀ i, i < API_RETRY_LIMIT → oc i = ApiOutcome.exc429) →
        call_gemini_with_retry oc API_RETRY_LIMIT =
          ("Unknown", (List.range API_RETRY_LIMIT).map fun i => API_RETRY_DELAY * 2 ^ i)) := by
  refine ⟨?_, ?_, ?_⟩
  · rcases retryGo_result oc API_RETRY_LIMIT 0 with hu | ⟨i, t, _, hlt, hoci, hres⟩
    · left; exact hu
    · right; exact ⟨i, t, by omega, hoci, hres⟩
  · intro j hj h429 hother
    have hrun := retryGo_run oc j 0 API_RETRY_LIMIT
      (fun i hi => by simpa using h429 i hi) (Nat.le_of_lt hj)
    obtain ⟨m, hm⟩ : ∃ m, API_RETRY_LIMIT - j = m + 1 := ⟨API_RETRY_LIMIT - j - 1, by omega⟩
    rw [call_gemini_with_retry, hrun, hm]
    simp [retryGo, hother]
  · intro h429
    have hrun := retryGo_run oc API_RETRY_LIMIT 0 API_RETRY_LIMIT
      (fun i hi => by simpa using h429 i hi) (Nat.le_refl _)
    rw [call_gemini_with_retry, hrun]
    simp [retryGo]

/-- C8 witness: one rate-limit error followed by a non-rate-limit error
returns "Unknown" after a single 2-second delay. -/
theorem c8_never_propagates_witness :
    call_gemini_with_retry
      (fun i => if i = 0 then ApiOutcome.exc429 else ApiOutcome.excOther)
      API_RETRY_LIMIT = ("Unknown", [2]) := by
  have h := (c8_never_propagates
      (fun i => if i = 0 then ApiOutcome.exc429 else ApiOutcome.excOther)).2.1
    1 (by decide)
    (fun i hi => by
      have hi0 : i = 0 := by omega
      simp [hi0])
    (by decide)
  rw [h]
  decide

end Annotator

namespace Annotator

/-! ### C6: behaviour of the enrichment pass on failed or empty extraction -/

/-- Processing one unlabeled entry: unfolding of annotate_papers on a
singleton metadata list. -/
theorem annotate_papers_singleton (fs : List (String × PdfFile))
    (oc : String → Nat → ApiOutcome) (e : AnnEntry) (he : e.annot = none) :
    annotate_papers fs oc [e] = ([(annotate_one fs oc e).1], (annotate_one fs oc e).2) := by
  simp [annotate_papers, annLoop, he]

set_option maxRecDepth 4000 in
/-- C6 counterexample: a valid, readable artifact whose first pages contain
no text at all.  Extraction yields empty text (the stripped join of the
pages is ""), yet the code substitutes the placeholder "No text found",
calls the classifier on it, and stores the classifier's label instead of
"Unknown" — the claim's required behaviour (label "Unknown", no classifier
call) does not occur. -/
theorem c6_empty_text_calls_classifier :
    pyStrip (String.intercalate "\n"
      (({ size := 10, openOk := true, pages := [""] } : PdfFile).pages.take 3)) = ""
    ∧ (annotate_papers [("p.pdf", { size := 10, openOk := true, pages := [""] })]
        (fun _ _ => ApiOutcome.resp (some "Optimization"))
        [{ title := "T", url := "u", authors := "a", year := 2024,
           file_path := "p.pdf", scraped_at := "t", annot := none }]).1 =
      [{ title := "T", url := "u", authors := "a", year := 2024,
         file_path := "p.pdf", scraped_at := "t", annot := some "Optimization" }]
    ∧ (annotate_papers [("p.pdf", { size := 10, openOk := true, pages := [""] })]
        (fun _ _ => ApiOutcome.resp (some "Optimization"))
        [{ title := "T", url := "u", authors := "a", year := 2024,
           file_path := "p.pdf", scraped_at := "t", annot := none }]).2 =
      [mkPrompt "No text found"] := by
  decide

/-- C6 amended: for an unlabeled item, if extract_text_from_pdf returns ""
(the artifact is missing, empty on disk, or opening/reading it raises), the
worker sets the label to "Unknown" and sends nothing to the classifier;
but whenever extract_text_from_pdf returns non-empty text — including the
placeholder "No text found" that it substitutes when extraction succeeds on
empty text — the classifier is called on a prompt built from that text. -/
theorem c6_amended_failure_unknown_no_call (fs : List (String × PdfFile))
    (oc : String → Nat → ApiOutcome) (e : AnnEntry) (he : e.annot = none) :
    (extract_text_from_pdf fs e.file_path = "" →
      annotate_papers fs oc [e] = ([{ e with annot := some "Unknown" }], []))
    ∧ (extract_text_from_pdf fs e.file_path ≠ "" →
      (annotate_papers fs oc [e]).2 = [mkPrompt (extract_text_from_pdf fs e.file_path)]) := by
  constructor
  · intro hext
    rw [annotate_papers_singleton fs oc e he]
    cases hv : is_valid_pdf fs e.file_path with
    | false => simp [annotate_one, hv]
    | true => simp [annotate_one, hv, hext]
  · intro hext
    cases hv : is_valid_pdf fs e.file_path with
    | false =>
      exact absurd (by simp [extract_text_from_pdf, hv]) hext
    | true =>
      rw [annotate_papers_singleton fs oc e he]
      simp [annotate_one, hv, hext]

/-- C6 amended witness: an entry whose artifact is absent from disk gets
label "Unknown" with no classifier call. -/
theorem c6_amended_witness :
    annotate_papers [] (fun _ _ => ApiOutcome.excOther)
      [{ title := "T", url := "u", authors := "a", year := 2024,
         file_path := "missing.pdf", scraped_at := "t", annot := none }] =
      ([{ title := "T", url := "u", authors := "a", year := 2024,
          file_path := "missing.pdf", scraped_at := "t", annot := some "Unknown" }], []) := by
  have h := (c6_amended_failure_unknown_no_call [] (fun _ _ => ApiOutcome.excOther)
    { title := "T", url := "u", authors := "a", year := 2024,
      file_path := "missing.pdf", scraped_at := "t", annot := none } rfl).1 (by decide)
  exact h

/-! ### C9: the pass never touches an already-labelled entry -/

/-- Effect of the annotate_papers pass on a single entry of the metadata
list (identity on labelled entries). -/
def annStep (fs : List (String × PdfFile)) (oc : String → Nat → ApiOutcome)
    (e : AnnEntry) : AnnEntry :=
  match e.annot with
  | some _ => e
  | none => (annotate_one fs oc e).1

/-- The loop updates the entries pointwise, in place. -/
theorem annLoop_fst (fs : List (String × PdfFile)) (oc : String → Nat → ApiOutcome) :
    ∀ md : List AnnEntry, (annLoop fs oc md).1 = md.map (annStep fs oc) := by
  intro md
  induction md with
  | nil => rfl
  | cons e rest ih =>
    cases he : e.annot with
    | some l => simp [annLoop, he, ih, annStep]
    | none => simp [annLoop, he, ih, annStep]

/-- When every entry is already labelled, the pointwise update is the
identity. -/
theorem map_annStep_of_all (fs : List (String × PdfFile))
    (oc : String → Nat → ApiOutcome) :
    ∀ md : List AnnEntry, md.all (fun e => e.annot.isSome) →
      md.map (annStep fs oc) = md := by
  intro md
  induction md with
  | nil => intro _; rfl
  | cons e rest ih =>
    intro h
    rw [List.all_cons, Bool.and_eq_true] at h
    obtain ⟨l, hl⟩ := Option.isSome_iff_exists.mp h.1
    simp [annStep, hl, ih h.2]

/-- annotate_papers updates the metadata list pointwise in every branch,
including the early returns. -/
theorem annotate_papers_fst (fs : List (String × PdfFile))
    (oc : String → Nat → ApiOutcome) (md : List AnnEntry) :
    (annotate_papers fs oc md).1 = md.map (annStep fs oc) := by
  unfold annotate_papers
  by_cases h1 : md.isEmpty
  · rw [List.isEmpty_iff] at h1
    subst h1
    rfl
  · simp only [h1, if_false]
    by_cases h2 : md.all (fun e => e.annot.isSome)
    · simp only [h2, if_true]
      exact (map_annStep_of_all fs oc md h2).symm
    · simp only [h2, if_false]
      exact annLoop_fst fs oc md

/-- A processed entry keeps all fields and gains a label. -/
theorem annotate_one_shape (fs : List (String × PdfFile))
    (oc : String → Nat → ApiOutcome) (e : AnnEntry) :
    ∃ l, (annotate_one fs oc e).1 = { e with annot := some l } := by
  unfold annotate_one
  by_cases hv : is_valid_pdf fs e.file_path
  · simp only [hv, if_true]
    by_cases ht : extract_text_from_pdf fs e.file_path = ""
    · simp only [ht, if_true]
      exact ⟨"Unknown", rfl⟩
    · simp only [ht, if_false]
      exact ⟨_, rfl⟩
  · simp only [hv, if_false]
    exact ⟨"Unknown", rfl⟩

/-- C9: an annotate_papers pass mutates exactly the entries whose
annotation key is absent.  The output list has the same length; every entry
that already carries an annotation (the sentinel "Unknown" included) is
returned unchanged in place, all fields intact; and every entry without one
is returned in place with only its annotation set. -/
theorem c9_labeled_entries_unchanged (fs : List (String × PdfFile))
    (oc : String → Nat → ApiOutcome) (md : List AnnEntry) :
    (annotate_papers fs oc md).1.length = md.length
    ∧ (∀ i e, md.get? i = some e → e.annot.isSome →
        (annotate_papers fs oc md).1.get? i = some e)
    ∧ (∀ i e, md.get? i = some e → e.annot = none →
        ∃ l, (annotate_papers fs oc md).1.get? i = some { e with annot := some l }) := by
  have hfst := annotate_papers_fst fs oc md
  refine ⟨by rw [hfst, List.length_map], ?_, ?_⟩
  · intro i e hi he
    rw [hfst, List.get?_map, hi]
    obtain ⟨l, hl⟩ := Option.isSome_iff_exists.mp he
    simp [annStep, hl]
  · intro i e hi he
    obtain ⟨l, hl⟩ := annotate_one_shape fs oc e
    refine ⟨l, ?_⟩
    rw [hfst, List.get?_map, hi]
    simp [annStep, he, hl]

/-- C9 witness: a pass over one already-labelled entry (label "Unknown")
returns it unchanged. -/
theorem c9_labeled_entries_unchanged_witness :
    (annotate_papers [] (fun _ _ => ApiOutcome.excOther)
      [{ title := "T", url := "u", authors := "a", year := 2024,
         file_path := "p.pdf", scraped_at := "t", annot := some "Unknown" }]).1.get? 0 =
      some { title := "T", url := "u", authors := "a", year := 2024,
             file_path := "p.pdf", scraped_at := "t", annot := some "Unknown" } := by
  exact (c9_labeled_entries_unchanged [] (fun _ _ => ApiOutcome.excOther)
    [{ title := "T", url := "u", authors := "a", year := 2024,
       file_path := "p.pdf", scraped_at := "t", annot := some "Unknown" }]).2.1
    0 _ rfl rfl

end Annotator
